import Mathlib

/-!
A shallow embedding of `src/jupyterlab/datastore/handler.py`, the websocket
datastore handler of this repository, together with proofs of the
protocol properties stated in the specification.

Modelling conventions:
* A connected session (a `DatastoreHandler` instance) is identified by a
  `Nat`.  Its `store_key` binding is passed explicitly to each operation,
  mirroring `self.store_key`.
* The class-level dictionaries `store_ids`, `stores` and `handlers` are
  fields of `ServerState`, modelled as total functions `String → Option _`
  (`none` = key absent from the Python dict).
* `uuid.uuid4()` for a reply's fresh `msgId` is modelled by an explicit
  `fresh : String` argument.
* Outbound traffic is a list of `OutEvent`s: `reply` models
  `self.write_message(json.dumps(reply))`, `deliver` models
  `handler.write_message(message)` inside `broadcast` and carries the raw
  wire bytes of the original message.
* A Python operation that can raise an uncaught exception (`KeyError`,
  `ValueError` from `list.remove`) returns an `Option`; `none` is the raise.
* The `DatastoreDB` collaborator lives in `jupyterlab/datastore/db.py`,
  which is not among the sources; its three operations are modelled from
  the spec (see their doc comments).
-/

namespace Datastore

/-- A transaction: an opaque record with an `id` field plus an opaque
payload not interpreted by this layer. -/
structure Transaction where
  id : String
  payload : String
deriving DecidableEq, Repr

/-- The decoded `content` object of an inbound envelope.  Each key a
handler branch may `pop` can be independently present or absent. -/
structure Content where
  transactions : Option (List Transaction) := none
  transactionIds : Option (List String) := none
deriving DecidableEq, Repr

/-- A decoded inbound envelope.  `msgType` / `msgId` are `none` when the
JSON object lacks the key (`msg.pop(..., None)`).  `raw` is the original
serialized wire message, which `broadcast` forwards verbatim. -/
structure Msg where
  msgType : Option String := none
  msgId : Option String := none
  content : Option Content := none
  raw : String := ""
deriving DecidableEq, Repr

/-- The type-specific `content` of a reply envelope built by one of the
`create_*` helpers in the source. -/
inductive ReplyContent where
  | storeId (n : Nat)
  | transactionIds (ids : List String)
  | historyOf (transactions : List Transaction)
  | fetched (transactions : List Transaction)
deriving DecidableEq, Repr

/-- A reply envelope as built by the `create_*` helpers: fresh `msgId`,
fixed `msgType` string, `parentId` copied from the request's `msgId`. -/
structure Reply where
  msgId : String
  msgType : String
  parentId : Option String
  content : ReplyContent
deriving DecidableEq, Repr

/-- `create_storeid_reply(parent_id, store_id)` from the source; the
`uuid.uuid4()` msgId is the explicit `fresh` argument. -/
def create_storeid_reply (fresh : String) (parent_id : Option String) (store_id : Nat) : Reply :=
  { msgId := fresh, msgType := "storeid-reply", parentId := parent_id,
    content := ReplyContent.storeId store_id }

/-- `create_transactions_ack(parent_id, transactions)` from the source:
`transactionIds = [t['id'] for t in transactions]`. -/
def create_transactions_ack (fresh : String) (parent_id : Option String)
    (transactions : List Transaction) : Reply :=
  { msgId := fresh, msgType := "transaction-ack", parentId := parent_id,
    content := ReplyContent.transactionIds (transactions.map (fun t => t.id)) }

/-- `create_history_reply(parent_id, transactions)` from the source. -/
def create_history_reply (fresh : String) (parent_id : Option String)
    (transactions : List Transaction) : Reply :=
  { msgId := fresh, msgType := "history-reply", parentId := parent_id,
    content := ReplyContent.historyOf transactions }

/-- `create_fetch_reply(parent_id, transactions)` from the source. -/
def create_fetch_reply (fresh : String) (parent_id : Option String)
    (transactions : List Transaction) : Reply :=
  { msgId := fresh, msgType := "fetch-transaction-reply", parentId := parent_id,
    content := ReplyContent.fetched transactions }

/-- Modelled from the spec: `DatastoreDB.add_transactions` of
`jupyterlab/datastore/db.py` is not among the sources.  Spec §6 gives the
log collaborator `append(transactions) -> void`, appending to the ordered
log in list order. -/
def add_transactions (log : List Transaction) (transactions : List Transaction) :
    List Transaction :=
  log ++ transactions

/-- Modelled from the spec: `DatastoreDB.history` of
`jupyterlab/datastore/db.py` is not among the sources.  Spec §6 gives
`history() -> ordered sequence of Transaction`, the full ordered iteration
of everything appended. -/
def history (log : List Transaction) : List Transaction :=
  log

/-- Modelled from the spec: `DatastoreDB.get_transactions` of
`jupyterlab/datastore/db.py` is not among the sources.  Spec §6 gives
`getByIds(ids) -> ordered sequence of Transaction`, missing ids simply
omitted, order following the lookup (input) order. -/
def get_transactions (log : List Transaction) (ids : List String) : List Transaction :=
  ids.filterMap (fun i => log.find? (fun t => t.id == i))

/-- The class-level shared state of `DatastoreHandler`:
`store_ids` (store key → store id serial), `stores` (store key → datastore
db, modelled by its transaction log), `handlers` (store key → registered
handler list, in registration order). -/
structure ServerState where
  store_ids : String → Option Nat
  stores : String → Option (List Transaction)
  handlers : String → Option (List Nat)

/-- The state before any connection: all three dicts empty. -/
def empty_state : ServerState :=
  { store_ids := fun _ => none, stores := fun _ => none, handlers := fun _ => none }

/-- `DatastoreHandler.create_store_id`:
`store_ids[key] = 1 + store_ids[key]; return store_ids[key]`.
A key absent from `store_ids` raises `KeyError` (`none`). -/
def create_store_id (s : ServerState) (key : String) : Option (Nat × ServerState) :=
  match s.store_ids key with
  | none => none
  | some n =>
    some (n + 1,
      { s with store_ids := Function.update s.store_ids key (some (n + 1)) })

/-- `DatastoreHandler.open` for a session that supplied a store key
(named `open_session`; `open` is a Lean keyword): seed `store_ids[key]`
with 0 and `stores[key]` with a fresh empty db when absent, then append
the handler to `handlers[key]`. -/
def open_session (s : ServerState) (key : String) (sid : Nat) : ServerState :=
  let ids := match s.store_ids key with
    | none => Function.update s.store_ids key (some 0)
    | some _ => s.store_ids
  let sts := match s.stores key with
    | none => Function.update s.stores key (some [])
    | some _ => s.stores
  let hs := match s.handlers key with
    | none => Function.update s.handlers key (some [])
    | some _ => s.handlers
  { store_ids := ids, stores := sts,
    handlers := Function.update hs key (some ((hs key).getD [] ++ [sid])) }

/-- `DatastoreHandler.on_close`: `self.handlers[self.store_key].remove(self)`.
(The `self.db.close()` branch is dead: `get_db_file()` returns `':memory:'`.)
A key absent from `handlers` raises `KeyError`; Python's `list.remove`
removes the first occurrence and raises `ValueError` when the element is
not present — both raises are `none`. -/
def on_close (s : ServerState) (key : String) (sid : Nat) : Option ServerState :=
  match s.handlers key with
  | none => none
  | some hs =>
    if sid ∈ hs then
      some { s with handlers := Function.update s.handlers key (some (hs.erase sid)) }
    else
      none

/-- One outbound wire write: `reply target r` is
`write_message(json.dumps(r))` on the requesting session; `deliver target raw`
is `handler.write_message(message)` with the original raw message. -/
inductive OutEvent where
  | reply (target : Nat) (r : Reply)
  | deliver (target : Nat) (raw : String)
deriving DecidableEq, Repr

/-- `DatastoreHandler.broadcast(message)`: loop over
`handlers[store_key]`, skip `self`, deliver the raw message to each other
handler (every `write_message` succeeding). -/
def broadcast (hs : List Nat) (sid : Nat) (raw : String) : List OutEvent :=
  match hs with
  | [] => []
  | h :: t =>
    if h = sid then broadcast t sid raw
    else OutEvent.deliver h raw :: broadcast t sid raw

/-- The same broadcast loop when `write_message` may raise
(`fails h = true`: delivery to handler `h` raises, e.g.
`WebSocketClosedError`).  The loop body has no exception handling, so a
raise aborts the remaining iterations: the result is the list of
deliveries completed before the raise, paired with `false` when a raise
occurred. -/
def broadcast_attempt (hs : List Nat) (sid : Nat) (raw : String) (fails : Nat → Bool) :
    List OutEvent × Bool :=
  match hs with
  | [] => ([], true)
  | h :: t =>
    if h = sid then broadcast_attempt t sid raw fails
    else if fails h then ([], false)
    else
      let rest := broadcast_attempt t sid raw fails
      (OutEvent.deliver h raw :: rest.1, rest.2)

/-- `DatastoreHandler.on_message`, dispatching on `msgType`.
`sid`/`key` are `self` and `self.store_key`; `fresh` is the
`uuid.uuid4()` drawn for the (at most one) reply; `none` models an
uncaught exception (`self.db` is the entry of `stores` for `key`, attached
at open — a missing entry means `self.db` was never set). -/
def on_message (s : ServerState) (sid : Nat) (key : String) (fresh : String) (m : Msg) :
    Option (ServerState × List OutEvent) :=
  if m.msgType = some "transaction-broadcast" then
    match m.content with
    | none => some (s, [])
    | some c =>
      let transactions := c.transactions.getD []
      match s.stores key, s.handlers key with
      | some log, some hs =>
        some ({ s with stores :=
                  Function.update s.stores key (some (add_transactions log transactions)) },
          OutEvent.reply sid (create_transactions_ack fresh m.msgId transactions)
            :: broadcast hs sid m.raw)
      | _, _ => none
  else if m.msgType = some "storeid-request" then
    match create_store_id s key with
    | none => none
    | some (n, s') =>
      some (s', [OutEvent.reply sid (create_storeid_reply fresh m.msgId n)])
  else if m.msgType = some "history-request" then
    match s.stores key with
    | none => none
    | some log =>
      some (s, [OutEvent.reply sid (create_history_reply fresh m.msgId (history log))])
  else if m.msgType = some "fetch-transaction-request" then
    match m.content with
    | none => some (s, [])
    | some c =>
      let tids := c.transactionIds.getD []
      match s.stores key with
      | none => none
      | some log =>
        some (s, [OutEvent.reply sid (create_fetch_reply fresh m.msgId (get_transactions log tids))])
  else
    some (s, [])

/-- A `storeid-request` envelope with message id `mid`. -/
def storeid_msg (mid : String) : Msg :=
  { msgType := some "storeid-request", msgId := some mid, content := none, raw := "" }

/-- A `history-request` envelope with message id `mid`. -/
def history_msg (mid : String) : Msg :=
  { msgType := some "history-request", msgId := some mid, content := none, raw := "" }

/-- A `transaction-broadcast` envelope carrying `transactions` in its
content, with raw wire bytes `raw`. -/
def tx_broadcast_msg (mid : String) (transactions : List Transaction) (raw : String) : Msg :=
  { msgType := some "transaction-broadcast", msgId := some mid,
    content := some { transactions := some transactions, transactionIds := none }, raw := raw }

/-- A `fetch-transaction-request` envelope carrying `transactionIds`. -/
def fetch_msg (mid : String) (tids : List String) : Msg :=
  { msgType := some "fetch-transaction-request", msgId := some mid,
    content := some { transactions := none, transactionIds := some tids }, raw := "" }

/-- The `storeId` values carried by the reply events of an event list. -/
def reply_store_ids (evs : List OutEvent) : List Nat :=
  evs.filterMap (fun e =>
    match e with
    | OutEvent.reply _ r =>
      match r.content with
      | ReplyContent.storeId n => some n
      | _ => none
    | _ => none)

/-- Process a sequence of `storeid-request` envelopes, each given as a
(session id, fresh uuid, message id) triple, collecting the returned
`storeId` values in order. -/
def run_storeid_requests : ServerState → String → List (Nat × String × String) →
    Option (List Nat × ServerState)
  | s, _, [] => some ([], s)
  | s, key, (sid, fresh, mid) :: rest =>
    match on_message s sid key fresh (storeid_msg mid) with
    | none => none
    | some (s', evs) =>
      match run_storeid_requests s' key rest with
      | none => none
      | some (ns, sF) => some (reply_store_ids evs ++ ns, sF)

/-- A concrete state: sessions 0 and 5 both opened under store key `"k"`. -/
def demo_state : ServerState :=
  open_session (open_session empty_state "k" 0) "k" 5

theorem run_storeid_requests_eq (reqs : List (Nat × String × String)) (s : ServerState)
    (key : String) (c : Nat) (h : s.store_ids key = some c) :
    ∃ sF, run_storeid_requests s key reqs = some (List.range' (c + 1) reqs.length, sF) ∧
      sF.store_ids key = some (c + reqs.length) := by
  induction reqs generalizing s c with
  | nil => exact ⟨s, rfl, by simpa using h⟩
  | cons req rest ih =>
    obtain ⟨sid, fresh, mid⟩ := req
    have hstep : on_message s sid key fresh (storeid_msg mid)
        = some ({ s with store_ids := Function.update s.store_ids key (some (c + 1)) },
            [OutEvent.reply sid (create_storeid_reply fresh (some mid) (c + 1))]) := by
      simp [on_message, storeid_msg, create_store_id, h]
    have h' : (({ s with store_ids := Function.update s.store_ids key (some (c + 1)) } :
        ServerState)).store_ids key = some (c + 1) := by
      simp
    obtain ⟨sF, hrun, hids⟩ := ih _ _ h'
    refine ⟨sF, ?_, ?_⟩
    · simp [run_storeid_requests, hstep, hrun, reply_store_ids, create_storeid_reply,
        List.range'_succ]
    · rw [hids, List.length_cons]
      congr 1
      omega

/-- C1: for every store key and every sequence of N `storeid-request`
envelopes processed for that key (from any mix of sessions), the N
returned `storeId` values are pairwise distinct and strictly increasing,
all above the last value previously issued for that key; with the counter
at its initial 0, the first allocation returns 1. -/
theorem storeid_sequence (s : ServerState) (key : String) (c : Nat)
    (reqs : List (Nat × String × String)) (h : s.store_ids key = some c) :
    ∃ ids sF, run_storeid_requests s key reqs = some (ids, sF) ∧
      ids.length = reqs.length ∧
      ids.Pairwise (· < ·) ∧
      (∀ v ∈ ids, c < v) ∧
      (c = 0 → 0 < reqs.length → ids.head? = some 1) := by
  obtain ⟨sF, hrun, -⟩ := run_storeid_requests_eq reqs s key c h
  refine ⟨_, sF, hrun, by simp, List.pairwise_lt_range' _ _, ?_, ?_⟩
  · intro v hv
    have := List.mem_range'_1.mp hv
    omega
  · rintro rfl hlen
    cases reqs with
    | nil => simp at hlen
    | cons a t => simp [List.range'_succ]

/-- Witness for C1: three `storeid-request` envelopes on a freshly opened
key return ids of length 3, strictly increasing, positive, first id 1. -/
theorem storeid_sequence_witness :
    ∃ ids sF, run_storeid_requests (open_session empty_state "doc1" 0) "doc1"
        [(0, "u1", "m1"), (7, "u2", "m2"), (0, "u3", "m3")] = some (ids, sF) ∧
      ids.length = 3 ∧
      ids.Pairwise (· < ·) ∧
      (∀ v ∈ ids, 0 < v) ∧
      (0 = 0 → 0 < (3 : Nat) → ids.head? = some 1) := by
  have h : (open_session empty_state "doc1" 0).store_ids "doc1" = some 0 := by
    simp [open_session, empty_state]
  simpa using storeid_sequence (open_session empty_state "doc1" 0) "doc1" 0
    [(0, "u1", "m1"), (7, "u2", "m2"), (0, "u3", "m3")] h

/-- The broadcast loop delivers exactly to the handler list filtered of
the sender, in registration order. -/
theorem broadcast_eq_filter (hs : List Nat) (sid : Nat) (raw : String) :
    broadcast hs sid raw
      = (hs.filter (fun p => p ≠ sid)).map (fun p => OutEvent.deliver p raw) := by
  induction hs with
  | nil => rfl
  | cons h t ih =>
    by_cases hh : h = sid <;> simp [broadcast, hh, ih]

/-- Two concrete transactions used by witnesses. -/
def demo_ts : List Transaction :=
  [{ id := "t1", payload := "a" }, { id := "t2", payload := "b" }]

/-- C2: a `transaction-broadcast` carrying `ts` appends `ts` to the key's
log in list order, acks with `transactionIds = ts.map id` in the same
order, and a subsequent `history-request` on the key returns a history
with `ts` as a suffix (hence in the same relative order). -/
theorem transaction_broadcast_append_order (s : ServerState) (key : String)
    (log : List Transaction) (hs : List Nat) (sid sid2 : Nat)
    (mid mid2 fresh fresh2 raw : String) (ts : List Transaction)
    (hlog : s.stores key = some log) (hh : s.handlers key = some hs) :
    ∃ s', on_message s sid key fresh (tx_broadcast_msg mid ts raw)
        = some (s', OutEvent.reply sid (create_transactions_ack fresh (some mid) ts)
            :: broadcast hs sid raw) ∧
      s'.stores key = some (add_transactions log ts) ∧
      add_transactions log ts = log ++ ts ∧
      (create_transactions_ack fresh (some mid) ts).content
        = ReplyContent.transactionIds (ts.map (fun t => t.id)) ∧
      on_message s' sid2 key fresh2 (history_msg mid2)
        = some (s', [OutEvent.reply sid2 (create_history_reply fresh2 (some mid2) (log ++ ts))]) ∧
      ts <:+ log ++ ts := by
  refine ⟨{ s with stores := Function.update s.stores key (some (add_transactions log ts)) },
    ?_, ?_, rfl, rfl, ?_, List.suffix_append log ts⟩
  · simp [on_message, tx_broadcast_msg, hlog, hh]
  · simp
  · simp [on_message, history_msg, history, add_transactions]

/-- Witness for C2 at a concrete two-session store with an empty log. -/
theorem transaction_broadcast_append_order_witness :
    ∃ s', on_message demo_state 0 "k" "f1" (tx_broadcast_msg "m1" demo_ts "RAW")
        = some (s', OutEvent.reply 0 (create_transactions_ack "f1" (some "m1") demo_ts)
            :: broadcast [0, 5] 0 "RAW") ∧
      s'.stores "k" = some (add_transactions [] demo_ts) ∧
      add_transactions [] demo_ts = [] ++ demo_ts ∧
      (create_transactions_ack "f1" (some "m1") demo_ts).content
        = ReplyContent.transactionIds (demo_ts.map (fun t => t.id)) ∧
      on_message s' 5 "k" "f2" (history_msg "m2")
        = some (s', [OutEvent.reply 5 (create_history_reply "f2" (some "m2") ([] ++ demo_ts))]) ∧
      demo_ts <:+ [] ++ demo_ts :=
  transaction_broadcast_append_order demo_state "k" [] [0, 5] 0 5 "m1" "m2" "f1" "f2" "RAW"
    demo_ts (by decide) (by decide)

/-- C3: an accepted `transaction-broadcast` forwards the original raw
wire message verbatim to every other registered session under the key,
exactly once per peer (the delivery list repeats no peer), and the sender
receives no delivery of any payload. -/
theorem broadcast_verbatim_excludes_sender (s : ServerState) (key : String)
    (log : List Transaction) (hs : List Nat) (sid : Nat) (mid fresh raw : String)
    (c : Content) (hlog : s.stores key = some log) (hh : s.handlers key = some hs)
    (hnd : hs.Nodup) :
    ∃ s' ack, on_message s sid key fresh
        { msgType := some "transaction-broadcast", msgId := some mid,
          content := some c, raw := raw }
        = some (s', OutEvent.reply sid ack
            :: (hs.filter (fun p => p ≠ sid)).map (fun p => OutEvent.deliver p raw)) ∧
      ((hs.filter (fun p => p ≠ sid)).map (fun p => OutEvent.deliver p raw)).Nodup ∧
      (∀ p ∈ hs, p ≠ sid → OutEvent.deliver p raw
          ∈ (hs.filter (fun p => p ≠ sid)).map (fun p => OutEvent.deliver p raw)) ∧
      (∀ r, OutEvent.deliver sid r
          ∉ OutEvent.reply sid ack
            :: (hs.filter (fun p => p ≠ sid)).map (fun p => OutEvent.deliver p raw)) := by
  refine ⟨{ s with stores :=
      Function.update s.stores key (some (add_transactions log (c.transactions.getD []))) },
    create_transactions_ack fresh (some mid) (c.transactions.getD []), ?_, ?_, ?_, ?_⟩
  · simp [on_message, hlog, hh, broadcast_eq_filter]
  · exact List.Nodup.map (fun a b hab => by injection hab) (hnd.filter _)
  · intro p hp hps
    exact List.mem_map.mpr ⟨p, List.mem_filter.mpr ⟨hp, by simp [hps]⟩, rfl⟩
  · intro r hr
    rcases List.mem_cons.mp hr with h1 | h2
    · exact OutEvent.noConfusion h1
    · obtain ⟨p, hpf, hpe⟩ := List.mem_map.mp h2
      obtain ⟨-, hps⟩ := List.mem_filter.mp hpf
      injection hpe with hpe1 hpe2
      simp [hpe1] at hps

/-- Witness for C3 at a concrete two-session store: peer 5 gets exactly
one verbatim copy and the sender 0 receives nothing. -/
theorem broadcast_verbatim_excludes_sender_witness :
    ∃ s' ack, on_message demo_state 0 "k" "f1"
        { msgType := some "transaction-broadcast", msgId := some "m1",
          content := some { transactions := some demo_ts, transactionIds := none },
          raw := "RAW" }
        = some (s', OutEvent.reply 0 ack
            :: (([0, 5] : List Nat).filter (fun p => p ≠ 0)).map
                (fun p => OutEvent.deliver p "RAW")) ∧
      ((([0, 5] : List Nat).filter (fun p => p ≠ 0)).map
          (fun p => OutEvent.deliver p "RAW")).Nodup ∧
      (∀ p ∈ ([0, 5] : List Nat), p ≠ 0 → OutEvent.deliver p "RAW"
          ∈ (([0, 5] : List Nat).filter (fun p => p ≠ 0)).map
              (fun p => OutEvent.deliver p "RAW")) ∧
      (∀ r, OutEvent.deliver 0 r
          ∉ OutEvent.reply 0 ack
            :: (([0, 5] : List Nat).filter (fun p => p ≠ 0)).map
                (fun p => OutEvent.deliver p "RAW")) :=
  broadcast_verbatim_excludes_sender demo_state "k" [] [0, 5] 0 "m1" "f1" "RAW"
    { transactions := some demo_ts, transactionIds := none }
    (by decide) (by decide) (by decide)

/-- C4 counterexample: a `transaction-broadcast` whose `content` object is
present but lacks the `transactions` key is not silently dropped — the
handler still sends a reply to the sender and still delivers a broadcast
to the peer session, refuting the claim at this input. -/
theorem missing_transactions_key_not_dropped :
    ∃ s' ack rest, on_message demo_state 0 "k" "f1"
        { msgType := some "transaction-broadcast", msgId := some "m1",
          content := some { transactions := none, transactionIds := none }, raw := "RAW" }
      = some (s', OutEvent.reply 0 ack :: rest) ∧ rest = [OutEvent.deliver 5 "RAW"] :=
  ⟨_, _, _, rfl, rfl⟩

/-- C4 (amended): an inbound `transaction-broadcast` or
`fetch-transaction-request` envelope whose `content` object is entirely
missing is silently dropped: no reply, no broadcast, the session stays
open and the whole server state (including the log) is unchanged.
(An envelope whose `content` is present but lacks the inner key is not
dropped; the key defaults to the empty list and a reply is still sent.) -/
theorem missing_content_silent_drop (s : ServerState) (sid : Nat) (key : String)
    (fresh : String) (m : Msg)
    (ht : m.msgType = some "transaction-broadcast" ∨
      m.msgType = some "fetch-transaction-request")
    (hc : m.content = none) :
    on_message s sid key fresh m = some (s, []) := by
  rcases ht with ht | ht <;> simp [on_message, ht, hc]

/-- Witness for C4's amended theorem: a `transaction-broadcast` with no
`content` at all is dropped with no events and an unchanged state. -/
theorem missing_content_silent_drop_witness :
    on_message demo_state 0 "k" "f1"
        { msgType := some "transaction-broadcast", msgId := some "m1",
          content := none, raw := "RAW" }
      = some (demo_state, []) :=
  missing_content_silent_drop demo_state 0 "k" "f1" _ (Or.inl rfl) rfl

/-- C5 counterexample: deregistering a session that is not registered is
not a tolerated no-op — `handlers[key].remove(self)` raises `ValueError`
(modelled as `none`): closing session 7, never registered under `"k"`,
raises. -/
theorem on_close_absent_session_raises :
    on_close (open_session empty_state "k" 0) "k" 7 = none :=
  rfl

/-- C5 (amended): deregistering a session that is present removes the
first occurrence of it, leaving (for a duplicate-free registration list)
exactly the sessions registered and not yet deregistered; deregistering a
session that is not present raises `ValueError` rather than being an
idempotent no-op. -/
theorem on_close_removes_first_occurrence (s : ServerState) (key : String)
    (hs : List Nat) (sid : Nat) (hh : s.handlers key = some hs) :
    (sid ∈ hs →
      on_close s key sid
        = some { s with handlers := Function.update s.handlers key (some (hs.erase sid)) } ∧
      (hs.Nodup → ∀ x, x ∈ hs.erase sid ↔ x ≠ sid ∧ x ∈ hs)) ∧
    (sid ∉ hs → on_close s key sid = none) := by
  constructor
  · intro hmem
    exact ⟨by simp [on_close, hh, hmem], fun hnd x => hnd.mem_erase_iff⟩
  · intro hmem
    simp [on_close, hh, hmem]

/-- Witness for C5's amended theorem at the concrete two-session store. -/
theorem on_close_removes_first_occurrence_witness :
    ((5 : Nat) ∈ ([0, 5] : List Nat) →
      on_close demo_state "k" 5
        = some { demo_state with
            handlers := Function.update demo_state.handlers "k"
              (some (([0, 5] : List Nat).erase 5)) } ∧
      (([0, 5] : List Nat).Nodup →
        ∀ x, x ∈ ([0, 5] : List Nat).erase 5 ↔ x ≠ 5 ∧ x ∈ ([0, 5] : List Nat))) ∧
    ((5 : Nat) ∉ ([0, 5] : List Nat) → on_close demo_state "k" 5 = none) :=
  on_close_removes_first_occurrence demo_state "k" [0, 5] 5 (by decide)

/-- Transactions returned by a fetch lookup all come from the log that
was looked up. -/
theorem get_transactions_subset (log : List Transaction) (ids : List String) :
    ∀ t ∈ get_transactions log ids, t ∈ log := by
  intro t ht
  obtain ⟨i, -, hfind⟩ := List.mem_filterMap.mp ht
  exact List.mem_of_find?_eq_some hfind

/-- C6: a transaction appended via `transaction-broadcast` on a session
bound to key `A` leaves key `B`'s log untouched; the `history-reply` and
`fetch-transaction-reply` produced for a session bound to `B` draw only
from `B`'s log, so they never contain a transaction that `B`'s log did
not already hold. -/
theorem key_isolation (s : ServerState) (A B : String) (hAB : A ≠ B)
    (logB : List Transaction) (sidA sidB : Nat)
    (midT freshT rawT midH freshH midF freshF : String)
    (ts : List Transaction) (tids : List String)
    (s' : ServerState) (evs : List OutEvent)
    (hB : s.stores B = some logB)
    (hrun : on_message s sidA A freshT (tx_broadcast_msg midT ts rawT) = some (s', evs)) :
    s'.stores B = some logB ∧
    on_message s' sidB B freshH (history_msg midH)
      = some (s', [OutEvent.reply sidB
          (create_history_reply freshH (some midH) (history logB))]) ∧
    (∀ t ∈ ts, t ∉ logB → t ∉ history logB) ∧
    on_message s' sidB B freshF (fetch_msg midF tids)
      = some (s', [OutEvent.reply sidB
          (create_fetch_reply freshF (some midF) (get_transactions logB tids))]) ∧
    (∀ t ∈ ts, t ∉ logB → t ∉ get_transactions logB tids) := by
  have hsB : s'.stores B = some logB := by
    rcases hA : s.stores A with _ | logA <;>
      rcases hHA : s.handlers A with _ | hsA <;>
      simp [on_message, tx_broadcast_msg, hA, hHA] at hrun
    obtain ⟨hs', -⟩ := hrun
    rw [← hs']
    simpa [Function.update_noteq (Ne.symm hAB)] using hB
  refine ⟨hsB, ?_, ?_, ?_, ?_⟩
  · simp [on_message, history_msg, hsB]
  · intro t _ htB
    simpa [history] using htB
  · simp [on_message, fetch_msg, hsB]
  · intro t _ htB hmem
    exact htB (get_transactions_subset logB tids t hmem)

/-- A concrete state with session 0 opened under key `"A"` and session 5
under key `"B"`. -/
def demo_state2 : ServerState :=
  open_session (open_session empty_state "A" 0) "B" 5

/-- The state after session 0 broadcasts `demo_ts` under key `"A"` in
`demo_state2`. -/
def demo_state2' : ServerState :=
  { demo_state2 with stores :=
      Function.update demo_state2.stores "A" (some (add_transactions [] demo_ts)) }

/-- Witness for C6: the broadcast under `"A"` leaves `"B"`'s log empty,
and history / fetch for `"B"` contain none of the appended transactions. -/
theorem key_isolation_witness :
    demo_state2'.stores "B" = some [] ∧
    on_message demo_state2' 5 "B" "fH" (history_msg "mH")
      = some (demo_state2', [OutEvent.reply 5
          (create_history_reply "fH" (some "mH") (history []))]) ∧
    (∀ t ∈ demo_ts, t ∉ ([] : List Transaction) → t ∉ history []) ∧
    on_message demo_state2' 5 "B" "fF" (fetch_msg "mF" ["t1"])
      = some (demo_state2', [OutEvent.reply 5
          (create_fetch_reply "fF" (some "mF") (get_transactions [] ["t1"]))]) ∧
    (∀ t ∈ demo_ts, t ∉ ([] : List Transaction) → t ∉ get_transactions [] ["t1"]) :=
  key_isolation demo_state2 "A" "B" (by decide) [] 0 5 "mT" "fT" "RAW" "mH" "fH" "mF" "fF"
    demo_ts ["t1"] demo_state2'
    [OutEvent.reply 0 (create_transactions_ack "fT" (some "mT") demo_ts)]
    (by decide) rfl

/-- The reply `msgType` the dispatcher produces for each recognized
request `msgType` (`none`: no defined reply). -/
def reply_type_of : String → Option String
  | "transaction-broadcast" => some "transaction-ack"
  | "storeid-request" => some "storeid-reply"
  | "history-request" => some "history-reply"
  | "fetch-transaction-request" => some "fetch-transaction-reply"
  | _ => none

/-- C7: a well-formed request of one of the four recognized types gets
exactly one direct reply to the requesting session, with `parentId` equal
to the request's `msgId`, the freshly generated `msgId`, and the matching
reply `msgType`; everything else emitted is a verbatim delivery of the
raw request to a non-sender peer, so the reply itself is never
broadcast. -/
theorem request_reply_correlation (s : ServerState) (sid : Nat) (key : String)
    (fresh : String) (m : Msg) (mt rt : String)
    (log : List Transaction) (hs : List Nat) (n : Nat)
    (hmt : m.msgType = some mt) (hrt : reply_type_of mt = some rt)
    (hcontent : m.content ≠ none)
    (hlog : s.stores key = some log) (hh : s.handlers key = some hs)
    (hn : s.store_ids key = some n) :
    ∃ s' r rest, on_message s sid key fresh m = some (s', OutEvent.reply sid r :: rest) ∧
      r.parentId = m.msgId ∧ r.msgId = fresh ∧ r.msgType = rt ∧
      (∀ e ∈ rest, ∃ p, e = OutEvent.deliver p m.raw ∧ p ≠ sid) ∧
      (∀ t r', OutEvent.reply t r' ∈ OutEvent.reply sid r :: rest → t = sid ∧ r' = r) := by
  obtain ⟨c, hc⟩ : ∃ c, m.content = some c := by
    rcases h : m.content with _ | c
    · exact absurd h hcontent
    · exact ⟨c, rfl⟩
  have empty_rest : ∀ (r : Reply), (∀ e ∈ ([] : List OutEvent),
      ∃ p, e = OutEvent.deliver p m.raw ∧ p ≠ sid) ∧
      (∀ t r', OutEvent.reply t r' ∈ [OutEvent.reply sid r] → t = sid ∧ r' = r) := by
    intro r
    refine ⟨by simp, ?_⟩
    intro t r' hmem
    rcases List.mem_cons.mp hmem with h | h
    · injection h with h1 h2
      exact ⟨h1, h2⟩
    · simp at h
  by_cases h1 : mt = "transaction-broadcast"
  · subst h1
    simp only [reply_type_of] at hrt
    rw [Option.some.injEq] at hrt
    subst hrt
    refine ⟨{ s with
          stores := Function.update s.stores key
            (some (add_transactions log (c.transactions.getD []))) },
      create_transactions_ack fresh m.msgId (c.transactions.getD []),
      broadcast hs sid m.raw, ?_, rfl, rfl, rfl, ?_, ?_⟩
    · simp [on_message, hmt, hc, hlog, hh]
    · intro e he
      rw [broadcast_eq_filter] at he
      obtain ⟨p, hpf, rfl⟩ := List.mem_map.mp he
      obtain ⟨-, hps⟩ := List.mem_filter.mp hpf
      exact ⟨p, rfl, by simpa using hps⟩
    · intro t r' hmem
      rcases List.mem_cons.mp hmem with h | h
      · injection h with ht hr
        exact ⟨ht, hr⟩
      · rw [broadcast_eq_filter] at h
        obtain ⟨p, -, hpe⟩ := List.mem_map.mp h
        exact OutEvent.noConfusion hpe
  by_cases h2 : mt = "storeid-request"
  · subst h2
    simp only [reply_type_of] at hrt
    rw [Option.some.injEq] at hrt
    subst hrt
    refine ⟨{ s with store_ids := Function.update s.store_ids key (some (n + 1)) },
      create_storeid_reply fresh m.msgId (n + 1), [], ?_, rfl, rfl, rfl,
      (empty_rest (create_storeid_reply fresh m.msgId (n + 1))).1,
      (empty_rest (create_storeid_reply fresh m.msgId (n + 1))).2⟩
    simp [on_message, hmt, h1, create_store_id, hn]
  by_cases h3 : mt = "history-request"
  · subst h3
    simp only [reply_type_of] at hrt
    rw [Option.some.injEq] at hrt
    subst hrt
    refine ⟨s, create_history_reply fresh m.msgId (history log), [], ?_, rfl, rfl, rfl,
      (empty_rest (create_history_reply fresh m.msgId (history log))).1,
      (empty_rest (create_history_reply fresh m.msgId (history log))).2⟩
    simp [on_message, hmt, h1, h2, hlog]
  by_cases h4 : mt = "fetch-transaction-request"
  · subst h4
    simp only [reply_type_of] at hrt
    rw [Option.some.injEq] at hrt
    subst hrt
    refine ⟨s, create_fetch_reply fresh m.msgId
        (get_transactions log (c.transactionIds.getD [])), [], ?_, rfl, rfl, rfl,
      (empty_rest (create_fetch_reply fresh m.msgId
        (get_transactions log (c.transactionIds.getD [])))).1,
      (empty_rest (create_fetch_reply fresh m.msgId
        (get_transactions log (c.transactionIds.getD [])))).2⟩
    simp [on_message, hmt, h1, h2, h3, hc, hlog]
  exact absurd hrt (by simp [reply_type_of, h1, h2, h3, h4])

/-- Witness for C7: a `storeid-request` on the concrete two-session store
gets exactly one correctly-correlated `storeid-reply`. -/
theorem request_reply_correlation_witness :
    ∃ s' r rest, on_message demo_state 0 "k" "fr"
        { msgType := some "storeid-request", msgId := some "mq",
          content := some {}, raw := "" }
        = some (s', OutEvent.reply 0 r :: rest) ∧
      r.parentId = some "mq" ∧ r.msgId = "fr" ∧ r.msgType = "storeid-reply" ∧
      (∀ e ∈ rest, ∃ p, e = OutEvent.deliver p "" ∧ p ≠ 0) ∧
      (∀ t r', OutEvent.reply t r' ∈ OutEvent.reply 0 r :: rest → t = 0 ∧ r' = r) :=
  request_reply_correlation demo_state 0 "k" "fr"
    { msgType := some "storeid-request", msgId := some "mq", content := some {}, raw := "" }
    "storeid-request" "storeid-reply" [] [0, 5] 0 rfl rfl (by simp)
    (by decide) (by decide) (by decide)

/-- C8: an inbound envelope whose `msgType` is not one of the four
recognized request types (or is absent) is a silent no-op: no reply, no
broadcast, no raise, and the server state — log, sequence counter and
session set included — is returned unchanged. -/
theorem unknown_msgtype_noop (s : ServerState) (sid : Nat) (key : String)
    (fresh : String) (m : Msg)
    (h : ∀ mt, m.msgType = some mt → reply_type_of mt = none) :
    on_message s sid key fresh m = some (s, []) := by
  rcases hm : m.msgType with _ | mt
  · simp [on_message, hm]
  · have hnone := h mt hm
    have h1 : mt ≠ "transaction-broadcast" := by
      rintro rfl; simp [reply_type_of] at hnone
    have h2 : mt ≠ "storeid-request" := by
      rintro rfl; simp [reply_type_of] at hnone
    have h3 : mt ≠ "history-request" := by
      rintro rfl; simp [reply_type_of] at hnone
    have h4 : mt ≠ "fetch-transaction-request" := by
      rintro rfl; simp [reply_type_of] at hnone
    simp [on_message, hm, h1, h2, h3, h4]

/-- Witness for C8: a `bogus-type` envelope on the concrete two-session
store produces no events and leaves the state untouched. -/
theorem unknown_msgtype_noop_witness :
    on_message demo_state 0 "k" "fr"
        { msgType := some "bogus-type", msgId := some "m1", content := none, raw := "" }
      = some (demo_state, []) :=
  unknown_msgtype_noop demo_state 0 "k" "fr"
    { msgType := some "bogus-type", msgId := some "m1", content := none, raw := "" }
    (by intro mt hmt; injection hmt with h; subst h; rfl)

/-- C9 counterexample: with registered handlers `[1, 2]`, sender `0`, and
delivery to handler `1` raising, handler `2` receives nothing — the
failure is not isolated and prevents delivery to the remaining peer. -/
theorem broadcast_failure_not_isolated :
    broadcast_attempt [1, 2] 0 "RAW" (fun p => p == 1) = ([], false) ∧
    OutEvent.deliver 2 "RAW" ∉ (broadcast_attempt [1, 2] 0 "RAW" (fun p => p == 1)).1 := by
  decide

theorem broadcast_attempt_abort_aux (post : List Nat) (p sid : Nat)
    (raw : String) (fails : Nat → Bool) (hp : fails p = true) (hps : p ≠ sid) :
    ∀ pre : List Nat, (∀ q ∈ pre, fails q = false) →
    broadcast_attempt (pre ++ p :: post) sid raw fails
      = ((pre.filter (fun q => q ≠ sid)).map (fun q => OutEvent.deliver q raw), false) := by
  intro pre
  induction pre with
  | nil => intro _; simp [broadcast_attempt, hps, hp]
  | cons q t ih =>
    intro hpre
    have hq := hpre q (by simp)
    have iht := ih (fun x hx => hpre x (by simp [hx]))
    by_cases hqs : q = sid <;> simp [broadcast_attempt, hqs, hq, iht]

/-- C9 (amended): a delivery failure to one peer during broadcast is not
isolated — the unhandled raise aborts the loop, so exactly the non-sender
peers before the failing peer in registration order have received the
message and every later peer receives nothing; the `transaction-ack` is
unaffected, being written to the sender before the broadcast starts. -/
theorem broadcast_failure_aborts (pre post : List Nat) (p sid : Nat) (raw : String)
    (fails : Nat → Bool) (s : ServerState) (sid2 : Nat) (key fresh mid raw2 : String)
    (ts : List Transaction) (log : List Transaction) (hs : List Nat)
    (hp : fails p = true) (hps : p ≠ sid)
    (hpre : ∀ q ∈ pre, fails q = false)
    (hlog : s.stores key = some log) (hh : s.handlers key = some hs) :
    broadcast_attempt (pre ++ p :: post) sid raw fails
      = ((pre.filter (fun q => q ≠ sid)).map (fun q => OutEvent.deliver q raw), false) ∧
    on_message s sid2 key fresh (tx_broadcast_msg mid ts raw2)
      = some ({ s with
            stores := Function.update s.stores key (some (add_transactions log ts)) },
          OutEvent.reply sid2 (create_transactions_ack fresh (some mid) ts)
            :: broadcast hs sid2 raw2) := by
  constructor
  · exact broadcast_attempt_abort_aux post p sid raw fails hp hps pre hpre
  · simp [on_message, tx_broadcast_msg, hlog, hh]

/-- Witness for C9's amended theorem: handlers `[3, 1, 2]`, sender `0`,
handler `1` failing — only handler `3` is served; on the concrete store
the ack heads the event list, before any delivery. -/
theorem broadcast_failure_aborts_witness :
    broadcast_attempt ([3] ++ 1 :: [2]) 0 "RAW" (fun q => q == 1)
      = ((([3] : List Nat).filter (fun q => q ≠ 0)).map
          (fun q => OutEvent.deliver q "RAW"), false) ∧
    on_message demo_state 0 "k" "f1" (tx_broadcast_msg "m1" demo_ts "RAW2")
      = some ({ demo_state with
            stores := Function.update demo_state.stores "k"
              (some (add_transactions [] demo_ts)) },
          OutEvent.reply 0 (create_transactions_ack "f1" (some "m1") demo_ts)
            :: broadcast [0, 5] 0 "RAW2") :=
  broadcast_failure_aborts [3] [2] 1 0 "RAW" (fun q => q == 1) demo_state 0 "k" "f1" "m1"
    "RAW2" demo_ts [] [0, 5] rfl (by decide) (by decide) (by decide) (by decide)

/-- C10: a `transaction-broadcast` whose `content` is present but lacks
the `transactions` key, and a `fetch-transaction-request` whose `content`
lacks the `transactionIds` key, treat the missing key as an empty list:
nothing is appended or looked up, yet a reply is still sent (an ack with
empty `transactionIds`, resp. a fetch reply with empty `transactions`),
and the broadcast of the original envelope still reaches every peer. -/
theorem missing_key_defaults_empty (s : ServerState) (sid : Nat) (key : String)
    (fresh mid raw : String) (log : List Transaction) (hs : List Nat)
    (hlog : s.stores key = some log) (hh : s.handlers key = some hs) :
    on_message s sid key fresh
        { msgType := some "transaction-broadcast", msgId := some mid,
          content := some { transactions := none, transactionIds := none }, raw := raw }
      = some ({ s with stores := Function.update s.stores key (some log) },
          OutEvent.reply sid
              { msgId := fresh, msgType := "transaction-ack",
                parentId := some mid, content := ReplyContent.transactionIds [] }
            :: broadcast hs sid raw) ∧
    on_message s sid key fresh
        { msgType := some "fetch-transaction-request", msgId := some mid,
          content := some { transactions := none, transactionIds := none }, raw := raw }
      = some (s,
          [OutEvent.reply sid
              { msgId := fresh, msgType := "fetch-transaction-reply",
                parentId := some mid, content := ReplyContent.fetched [] }]) ∧
    (∀ p ∈ hs, p ≠ sid → OutEvent.deliver p raw ∈ broadcast hs sid raw) := by
  refine ⟨?_, ?_, ?_⟩
  · simp [on_message, hlog, hh, add_transactions, create_transactions_ack]
  · simp [on_message, hlog, get_transactions, create_fetch_reply]
  · intro q hq hqs
    rw [broadcast_eq_filter]
    exact List.mem_map.mpr ⟨q, List.mem_filter.mpr ⟨hq, by simp [hqs]⟩, rfl⟩

/-- Witness for C10 at the concrete two-session store. -/
theorem missing_key_defaults_empty_witness :
    on_message demo_state 0 "k" "f1"
        { msgType := some "transaction-broadcast", msgId := some "m1",
          content := some { transactions := none, transactionIds := none }, raw := "RAW" }
      = some ({ demo_state with
            stores := Function.update demo_state.stores "k" (some []) },
          OutEvent.reply 0
              { msgId := "f1", msgType := "transaction-ack",
                parentId := some "m1", content := ReplyContent.transactionIds [] }
            :: broadcast [0, 5] 0 "RAW") ∧
    on_message demo_state 0 "k" "f1"
        { msgType := some "fetch-transaction-request", msgId := some "m1",
          content := some { transactions := none, transactionIds := none }, raw := "RAW" }
      = some (demo_state,
          [OutEvent.reply 0
              { msgId := "f1", msgType := "fetch-transaction-reply",
                parentId := some "m1", content := ReplyContent.fetched [] }]) ∧
    (∀ p ∈ ([0, 5] : List Nat), p ≠ 0 → OutEvent.deliver p "RAW" ∈ broadcast [0, 5] 0 "RAW") :=
  missing_key_defaults_empty demo_state 0 "k" "f1" "m1" "RAW" [] [0, 5]
    (by decide) (by decide)

end Datastore
